import Mathlib

/-!
Verification of the Salesforce integration fragment (block descriptor and
report/dashboard tool descriptors) against its specification.

The definitions below are a shallow embedding of the TypeScript source:
  - `src/apps/sim/tools/salesforce/reports.ts`
  - `src/apps/sim/tools/salesforce/dashboards.ts`
  - the `SalesforceBlock` descriptor (operation dispatch and parameter
    sanitization).

JavaScript values flowing through the code (JSON bodies, parameter bags)
are modelled by the `Json` type below, with an extra `undef` constructor
for JavaScript `undefined` as it appears from missing-property access.
-/

set_option maxRecDepth 4096

/-- A JavaScript/JSON value.  `undef` models JavaScript `undefined` (it is
never produced by `JSON.parse`, but arises from missing-property access).
`num` keeps the numeric literal's lexeme, which is faithful to the source
syntax and avoids floating-point semantics (no claim inspects a number). -/
inductive Json where
  | undef : Json
  | null : Json
  | bool (b : Bool) : Json
  | num (lexeme : String) : Json
  | str (s : String) : Json
  | arr (elems : List Json) : Json
  | obj (fields : List (String × Json)) : Json
deriving Repr

/-- Last-binding-wins lookup of a key in an object's field list: in
JavaScript, a later duplicate key in an object literal / `JSON.parse`
overwrites an earlier one, so property access sees the last one. -/
def lookupLast (fields : List (String × Json)) (key : String) : Option Json :=
  match fields with
  | [] => none
  | (k, v) :: rest =>
    match lookupLast rest key with
    | some w => some w
    | none => if k = key then some v else none

/-- JavaScript property access `v[key]` for the (non-throwing) receivers the
source exercises: named properties on objects, and index `0` on arrays,
objects and strings.  Access on other primitives yields `undefined`; access
on `null`/`undefined` (which throws in JavaScript) is handled separately at
each use site. -/
def jsGet : Json → String → Json
  | Json.obj fields, key => (lookupLast fields key).getD Json.undef
  | Json.arr es, key => if key = "0" then es.headD Json.undef else Json.undef
  | Json.str s, key => if key = "0" then (if s = "" then Json.undef else Json.str (String.mk (s.data.take 1))) else Json.undef
  | _, _ => Json.undef

/-- Whether the mantissa of a JSON numeric lexeme is zero (the exponent
cannot make a zero mantissa nonzero or vice versa). -/
def jsNumIsZero (lexeme : String) : Bool :=
  ((lexeme.data.takeWhile (fun c => c != 'e' && c != 'E')).filter Char.isDigit).all (fun c => c == '0')

/-- JavaScript truthiness of a value. -/
def jsTruthy : Json → Bool
  | Json.undef => false
  | Json.null => false
  | Json.bool b => b
  | Json.num lexeme => !(jsNumIsZero lexeme)
  | Json.str s => s != ""
  | Json.arr _ => true
  | Json.obj _ => true

/-- Truthiness of an optional string parameter (`undefined` and the empty
string are falsy). -/
def jsTruthyStr : Option String → Bool
  | none => false
  | some s => s != ""

/-! ### `atob`: forgiving base64 decoding (to a byte list) -/

/-- ASCII whitespace stripped by the forgiving-base64 algorithm. -/
def isB64Ws (c : Char) : Bool :=
  c == '\t' || c == '\n' || c == '\x0C' || c == '\r' || c == ' '

/-- Value of one base64 alphabet character. -/
def b64Val (c : Char) : Option Nat :=
  if 'A' ≤ c ∧ c ≤ 'Z' then some (c.toNat - 'A'.toNat)
  else if 'a' ≤ c ∧ c ≤ 'z' then some (c.toNat - 'a'.toNat + 26)
  else if '0' ≤ c ∧ c ≤ '9' then some (c.toNat - '0'.toNat + 52)
  else if c = '+' then some 62
  else if c = '/' then some 63
  else none

/-- Reassemble 6-bit values into bytes, four at a time; a final group of two
or three values contributes one or two bytes (leftover bits discarded, as in
forgiving-base64); a final group of one value is an error. -/
def b64Chunks : List Nat → Option (List Nat)
  | [] => some []
  | [_] => none
  | [a, b] => some [a * 4 + b / 16]
  | [a, b, c] => some [a * 4 + b / 16, (b % 16) * 16 + c / 4]
  | a :: b :: c :: d :: rest =>
    match b64Chunks rest with
    | some bs => some ((a * 4 + b / 16) :: ((b % 16) * 16 + c / 4) :: ((c % 4) * 64 + d) :: bs)
    | none => none

/-- Drop one trailing `=` if present. -/
def dropLastEq (cs : List Char) : List Char :=
  if cs.getLast? = some '=' then cs.dropLast else cs

/-- The browser `atob` builtin (forgiving-base64 decode), returning the
decoded bytes.  `none` models the `InvalidCharacterError` it throws. -/
def atobBytes (s : String) : Option (List Nat) :=
  let cs := s.data.filter (fun c => !(isB64Ws c))
  let cs := if cs.length % 4 = 0 then dropLastEq (dropLastEq cs) else cs
  if cs.length % 4 = 1 then none
  else
    match cs.mapM b64Val with
    | some vals => b64Chunks vals
    | none => none

/-! ### Strict UTF-8 decoding

The source turns the byte string from `atob` into `%xx` escapes and feeds
them to `decodeURIComponent`; the net effect is a strict UTF-8 decode of the
bytes, with `URIError` (here `none`) on any malformed sequence. -/

def isUtf8Cont (b : Nat) : Bool := decide (0x80 ≤ b ∧ b ≤ 0xBF)

def utf8Decode : List Nat → Option (List Char)
  | [] => some []
  | b :: rest =>
    if b < 0x80 then
      match utf8Decode rest with
      | some cs => some (Char.ofNat b :: cs)
      | none => none
    else if b < 0xC2 then none
    else if b < 0xE0 then
      match rest with
      | b1 :: rest2 =>
        if isUtf8Cont b1 then
          match utf8Decode rest2 with
          | some cs => some (Char.ofNat ((b - 0xC0) * 64 + (b1 - 0x80)) :: cs)
          | none => none
        else none
      | [] => none
    else if b < 0xF0 then
      match rest with
      | b1 :: b2 :: rest3 =>
        let lo1 := if b = 0xE0 then 0xA0 else 0x80
        let hi1 := if b = 0xED then 0x9F else 0xBF
        if decide (lo1 ≤ b1 ∧ b1 ≤ hi1) && isUtf8Cont b2 then
          match utf8Decode rest3 with
          | some cs => some (Char.ofNat ((b - 0xE0) * 4096 + (b1 - 0x80) * 64 + (b2 - 0x80)) :: cs)
          | none => none
        else none
      | _ => none
    else if b < 0xF5 then
      match rest with
      | b1 :: b2 :: b3 :: rest4 =>
        let lo1 := if b = 0xF0 then 0x90 else 0x80
        let hi1 := if b = 0xF4 then 0x8F else 0xBF
        if decide (lo1 ≤ b1 ∧ b1 ≤ hi1) && isUtf8Cont b2 && isUtf8Cont b3 then
          match utf8Decode rest4 with
          | some cs => some (Char.ofNat ((b - 0xF0) * 262144 + (b1 - 0x80) * 4096 + (b2 - 0x80) * 64 + (b3 - 0x80)) :: cs)
          | none => none
        else none
      | _ => none
    else none

/-! ### `JSON.parse` -/

/-- JSON whitespace (space, tab, line feed, carriage return). -/
def isJsonWs (c : Char) : Bool :=
  c == ' ' || c == '\t' || c == '\n' || c == '\r'

def hexVal (c : Char) : Option Nat :=
  if '0' ≤ c ∧ c ≤ '9' then some (c.toNat - '0'.toNat)
  else if 'a' ≤ c ∧ c ≤ 'f' then some (c.toNat - 'a'.toNat + 10)
  else if 'A' ≤ c ∧ c ≤ 'F' then some (c.toNat - 'A'.toNat + 10)
  else none

/-- Lex the body of a JSON string (after the opening quote) into UTF-16
code units (scalar values above 0xFFFF are kept as single entries; they can
never be confused with surrogates). -/
def lexStringUnits : List Char → Option (List Nat × List Char)
  | [] => none
  | '"' :: rest => some ([], rest)
  | '\\' :: esc =>
    match esc with
    | '"' :: r => match lexStringUnits r with
      | some (us, r2) => some (0x22 :: us, r2)
      | none => none
    | '\\' :: r => match lexStringUnits r with
      | some (us, r2) => some (0x5C :: us, r2)
      | none => none
    | '/' :: r => match lexStringUnits r with
      | some (us, r2) => some (0x2F :: us, r2)
      | none => none
    | 'b' :: r => match lexStringUnits r with
      | some (us, r2) => some (0x08 :: us, r2)
      | none => none
    | 'f' :: r => match lexStringUnits r with
      | some (us, r2) => some (0x0C :: us, r2)
      | none => none
    | 'n' :: r => match lexStringUnits r with
      | some (us, r2) => some (0x0A :: us, r2)
      | none => none
    | 'r' :: r => match lexStringUnits r with
      | some (us, r2) => some (0x0D :: us, r2)
      | none => none
    | 't' :: r => match lexStringUnits r with
      | some (us, r2) => some (0x09 :: us, r2)
      | none => none
    | 'u' :: h1 :: h2 :: h3 :: h4 :: r =>
      match hexVal h1, hexVal h2, hexVal h3, hexVal h4 with
      | some n1, some n2, some n3, some n4 =>
        match lexStringUnits r with
        | some (us, r2) => some ((n1 * 4096 + n2 * 256 + n3 * 16 + n4) :: us, r2)
        | none => none
      | _, _, _, _ => none
    | _ => none
  | c :: rest =>
    if c.toNat < 0x20 then none
    else
      match lexStringUnits rest with
      | some (us, r2) => some (c.toNat :: us, r2)
      | none => none

/-- Convert UTF-16 code units back to characters, combining surrogate
pairs.  JavaScript strings may hold lone surrogates, which a Lean `String`
cannot represent; they are mapped to U+FFFD here (no claim exercises them). -/
def unitsToChars : List Nat → List Char
  | [] => []
  | [u] =>
    [if decide (0xD800 ≤ u ∧ u ≤ 0xDFFF) then Char.ofNat 0xFFFD else Char.ofNat u]
  | u :: v :: rest =>
    if decide (0xD800 ≤ u ∧ u ≤ 0xDBFF) then
      if decide (0xDC00 ≤ v ∧ v ≤ 0xDFFF) then
        Char.ofNat (0x10000 + (u - 0xD800) * 1024 + (v - 0xDC00)) :: unitsToChars rest
      else Char.ofNat 0xFFFD :: unitsToChars (v :: rest)
    else if decide (0xDC00 ≤ u ∧ u ≤ 0xDFFF) then Char.ofNat 0xFFFD :: unitsToChars (v :: rest)
    else Char.ofNat u :: unitsToChars (v :: rest)

def takeDigits (cs : List Char) : List Char × List Char :=
  (cs.takeWhile Char.isDigit, cs.dropWhile Char.isDigit)

def parseExpDigits (mantissa : List Char) (e : Char) (cs : List Char) : Option (Json × List Char) :=
  let (sgn, r) : List Char × List Char :=
    match cs with
    | '+' :: r => (['+'], r)
    | '-' :: r => (['-'], r)
    | _ => ([], cs)
  let (ds, r2) := takeDigits r
  if ds = [] then none
  else some (Json.num (String.mk (mantissa ++ [e] ++ sgn ++ ds)), r2)

def parseExpPart (mantissa : List Char) (cs : List Char) : Option (Json × List Char) :=
  match cs with
  | 'e' :: r => parseExpDigits mantissa 'e' r
  | 'E' :: r => parseExpDigits mantissa 'E' r
  | _ => some (Json.num (String.mk mantissa), cs)

def parseFracPart (intPart : List Char) (cs : List Char) : Option (Json × List Char) :=
  match cs with
  | '.' :: r =>
    let (ds, r2) := takeDigits r
    if ds = [] then none else parseExpPart (intPart ++ ['.'] ++ ds) r2
  | _ => parseExpPart intPart cs

/-- Parse a JSON number (grammar `-?(0|[1-9][0-9]*)(\.[0-9]+)?([eE][+-]?[0-9]+)?`). -/
def parseNumber (cs : List Char) : Option (Json × List Char) :=
  let (sgn, cs1) : List Char × List Char :=
    match cs with
    | '-' :: r => (['-'], r)
    | _ => ([], cs)
  match cs1 with
  | '0' :: r => parseFracPart (sgn ++ ['0']) r
  | c :: _ =>
    if c.isDigit then
      parseFracPart (sgn ++ cs1.takeWhile Char.isDigit) (cs1.dropWhile Char.isDigit)
    else none
  | [] => none

mutual

/-- Parse one JSON value (fuel-bounded recursion). -/
def parseVal : Nat → List Char → Option (Json × List Char)
  | 0, _ => none
  | fuel + 1, cs =>
    match cs.dropWhile isJsonWs with
    | 'n' :: 'u' :: 'l' :: 'l' :: rest => some (Json.null, rest)
    | 't' :: 'r' :: 'u' :: 'e' :: rest => some (Json.bool true, rest)
    | 'f' :: 'a' :: 'l' :: 's' :: 'e' :: rest => some (Json.bool false, rest)
    | '"' :: rest =>
      match lexStringUnits rest with
      | some (units, r) => some (Json.str (String.mk (unitsToChars units)), r)
      | none => none
    | '[' :: rest =>
      match rest.dropWhile isJsonWs with
      | ']' :: r => some (Json.arr [], r)
      | _ =>
        match parseElems fuel rest with
        | some (es, r) => some (Json.arr es, r)
        | none => none
    | '{' :: rest =>
      match rest.dropWhile isJsonWs with
      | '}' :: r => some (Json.obj [], r)
      | _ =>
        match parseFields fuel rest with
        | some (fs, r) => some (Json.obj fs, r)
        | none => none
    | other => parseNumber other

/-- Parse the elements of a nonempty JSON array, up to and including `]`. -/
def parseElems : Nat → List Char → Option (List Json × List Char)
  | 0, _ => none
  | fuel + 1, cs =>
    match parseVal fuel cs with
    | some (v, r) =>
      match r.dropWhile isJsonWs with
      | ',' :: r2 =>
        match parseElems fuel r2 with
        | some (es, r3) => some (v :: es, r3)
        | none => none
      | ']' :: r2 => some ([v], r2)
      | _ => none
    | none => none

/-- Parse the fields of a nonempty JSON object, up to and including the
closing brace. -/
def parseFields : Nat → List Char → Option (List (String × Json) × List Char)
  | 0, _ => none
  | fuel + 1, cs =>
    match cs.dropWhile isJsonWs with
    | '"' :: r =>
      match lexStringUnits r with
      | some (units, r2) =>
        match r2.dropWhile isJsonWs with
        | ':' :: r3 =>
          match parseVal fuel r3 with
          | some (v, r4) =>
            match r4.dropWhile isJsonWs with
            | ',' :: r5 =>
              match parseFields fuel r5 with
              | some (fs, r6) => some ((String.mk (unitsToChars units), v) :: fs, r6)
              | none => none
            | '}' :: r5 => some ([(String.mk (unitsToChars units), v)], r5)
            | _ => none
          | none => none
        | _ => none
      | none => none
    | _ => none

end

/-- `JSON.parse`: parse a complete JSON document (`none` models the thrown
`SyntaxError`).  The fuel `2 * length + 8` dominates the recursion depth:
every two fuel units consume at least one input character. -/
def jsonParse (s : String) : Option Json :=
  match parseVal (2 * s.length + 8) s.data with
  | some (v, rest) => if rest.dropWhile isJsonWs = [] then some v else none
  | none => none

/-! ### The instance resolver `getInstanceUrl`

Embedded from `src/apps/sim/tools/salesforce/reports.ts` lines 9-34; the
same function appears verbatim in `src/apps/sim/tools/salesforce/dashboards.ts`
lines 9-34. -/

/-- The split `idToken.split('.')` of JavaScript, on character lists:
splitting the empty string yields `[""]`, and separators at the ends yield
empty segments, exactly as in JavaScript. -/
def splitDots : List Char → List (List Char)
  | [] => [[]]
  | '.' :: rest => [] :: splitDots rest
  | c :: rest =>
    match splitDots rest with
    | seg :: segs => (c :: seg) :: segs
    | [] => [[c]]

/-- The two global single-character replacements `-` to `+` and `_` to `/`
performed before `atob`. -/
def b64UrlToStd (c : Char) : Char :=
  if c == '-' then '+' else if c == '_' then '/' else c

/-- The regex match `s.match(/^(https:\/\/[^\x2f]+)/)`: the capture group is
`https://` followed by the longest nonempty run of characters other than a
slash, anchored at the start of the string. -/
def originMatch (s : String) : Option String :=
  if List.isPrefixOf "https://".data s.data then
    let host := (s.data.drop 8).takeWhile (fun c => c != '/')
    if host = [] then none else some ("https://" ++ String.mk host)
  else none

/-- Outcome of the `try` block of `getInstanceUrl` after the payload has
been decoded: a returned URL, a clean fall-through to the final `throw`, or
a JavaScript exception (caught and logged by the `catch`). -/
inductive TryResult where
  | ok (url : String) : TryResult
  | noUrl : TryResult
  | err : TryResult
deriving Repr, DecidableEq

def loginHost : String := "https://login.salesforce.com"

/-- Lines 21-28 of `getInstanceUrl`: inspect the parsed payload's `profile`
and `sub` claims.  Property access on `null`/`undefined` and calling
`.match` on a truthy non-string throw `TypeError` (caught by the `catch`). -/
def extractUrl (decoded : Json) : TryResult :=
  match decoded with
  | Json.undef => TryResult.err
  | Json.null => TryResult.err
  | _ =>
    let profile := jsGet decoded "profile"
    if jsTruthy profile then
      match profile with
      | Json.str s =>
        match originMatch s with
        | some m => TryResult.ok m
        | none => TryResult.noUrl
      | _ => TryResult.err
    else
      let sub := jsGet decoded "sub"
      if jsTruthy sub then
        match sub with
        | Json.str s =>
          match originMatch s with
          | some m => if m ≠ loginHost then TryResult.ok m else TryResult.noUrl
          | none => TryResult.noUrl
        | _ => TryResult.err
      else TryResult.noUrl

/-- Lines 13-21 of `getInstanceUrl`: take the token's second dot-separated
segment, map URL-safe base64 to standard base64, `atob` it, reinterpret the
bytes as UTF-8 text (the percent-escape/`decodeURIComponent` round trip) and
`JSON.parse` the result.  `none` models any exception along the way
(including the `TypeError` of `.replace` on `undefined` when the token has
no second segment). -/
def decodePayload (idToken : String) : Option Json :=
  match (splitDots idToken.data).get? 1 with
  | none => none
  | some seg =>
    let base64 := String.mk (seg.map b64UrlToStd)
    match atobBytes base64 with
    | none => none
    | some bytes =>
      match utf8Decode bytes with
      | none => none
      | some chars => jsonParse (String.mk chars)

/-- The whole `try` block: decode the payload and extract a URL from it. -/
def tokenTry (idToken : String) : TryResult :=
  match decodePayload idToken with
  | none => TryResult.err
  | some decoded => extractUrl decoded

/-- Result of `getInstanceUrl` together with the number of diagnostics the
function wrote through `logger.error`. -/
structure ResolveOutcome where
  result : Except String String
  logs : Nat
deriving Repr

def instanceUrlRequiredMsg : String :=
  "Salesforce instance URL is required but not provided"

/-- `getInstanceUrl(idToken?, instanceUrl?)`: explicit URL first (truthiness
check, so the empty string does not count), then the token path, else throw.
A caught exception in the token path logs exactly one diagnostic. -/
def getInstanceUrl (idToken : Option String) (instanceUrl : Option String) : ResolveOutcome :=
  if jsTruthyStr instanceUrl then ⟨Except.ok (instanceUrl.getD ""), 0⟩
  else if jsTruthyStr idToken then
    match tokenTry (idToken.getD "") with
    | TryResult.ok url => ⟨Except.ok url, 0⟩
    | TryResult.noUrl => ⟨Except.error instanceUrlRequiredMsg, 0⟩
    | TryResult.err => ⟨Except.error instanceUrlRequiredMsg, 1⟩
  else ⟨Except.error instanceUrlRequiredMsg, 0⟩


/-! ### Response transformers

Each tool's `transformResponse` is embedded as a function of
  - `ok` : whether the HTTP status was 2xx (`response.ok`),
  - `body` : the response body as parsed JSON, `none` when the body is not
    parseable JSON (so `response.json()` rejects),
  - `params` : the parameter bag passed to the transformer.
The result is `Except`: `Except.error` models a rejection of the async
transformer (a thrown error). -/

/-- An exception thrown by a response transformer: `thrown v` is
`new Error(v)` with the selected message value, `parseError` is the
`SyntaxError` of `response.json()` on an unparseable body, `typeError` is a
`TypeError` from property access on `null`. -/
inductive JsErr where
  | thrown (message : Json) : JsErr
  | parseError : JsErr
  | typeError : JsErr
deriving Repr

/-- JavaScript `data[0]` for the non-`null` values `JSON.parse` can give. -/
def jsIndex0 : Json → Json
  | Json.arr es => es.headD Json.undef
  | Json.obj fs => (lookupLast fs "0").getD Json.undef
  | Json.str s => if s = "" then Json.undef else Json.str (String.mk (s.data.take 1))
  | _ => Json.undef

/-- The optional chain `v?.message`. -/
def optChainMessage (v : Json) : Json :=
  match v with
  | Json.undef => Json.undef
  | Json.null => Json.undef
  | _ => jsGet v "message"

/-- The error thrown on a non-OK response:
`new Error(data[0]?.message || data.message || fallback)`.
When `data` is `null`, `data[0]` itself throws a `TypeError`. -/
def raiseErr (data : Json) (fallback : String) : JsErr :=
  match data with
  | Json.null => JsErr.typeError
  | _ =>
    let m1 := optChainMessage (jsIndex0 data)
    if jsTruthy m1 then JsErr.thrown m1
    else
      let m2 := jsGet data "message"
      if jsTruthy m2 then JsErr.thrown m2
      else JsErr.thrown (Json.str fallback)

/-- Reading `params.key` inside a transformer. -/
def paramGet (params : List (String × Json)) (key : String) : Json :=
  (lookupLast params key).getD Json.undef

/-- The `metadata: { operation: name }` object of the success envelopes. -/
def opMeta (name : String) : Json := Json.obj [("operation", Json.str name)]

/-- `salesforceListReportsTool.transformResponse` (reports.ts 61-72). -/
def listReportsTransform (ok : Bool) (body : Option Json) (_params : List (String × Json)) : Except JsErr Json :=
  match body with
  | none => Except.error JsErr.parseError
  | some data =>
    if !ok then Except.error (raiseErr data "Failed to list reports")
    else Except.ok (Json.obj [
      ("success", Json.bool true),
      ("output", Json.obj [
        ("reports", data),
        ("metadata", opMeta "list_reports"),
        ("success", Json.bool true)])])

/-- `salesforceGetReportMetadataTool.transformResponse` (reports.ts 110-123).
Note: here `metadata` holds the response payload and the operation name is a
sibling `operation` field of `output`. -/
def getReportMetadataTransform (ok : Bool) (body : Option Json) (params : List (String × Json)) : Except JsErr Json :=
  match body with
  | none => Except.error JsErr.parseError
  | some data =>
    if !ok then Except.error (raiseErr data "Failed to get report metadata")
    else Except.ok (Json.obj [
      ("success", Json.bool true),
      ("output", Json.obj [
        ("reportId", paramGet params "reportId"),
        ("metadata", data),
        ("operation", Json.str "get_report_metadata"),
        ("success", Json.bool true)])])

/-- `salesforceRunReportTool.transformResponse` (reports.ts 168-180). -/
def runReportTransform (ok : Bool) (body : Option Json) (params : List (String × Json)) : Except JsErr Json :=
  match body with
  | none => Except.error JsErr.parseError
  | some data =>
    if !ok then Except.error (raiseErr data "Failed to run report")
    else Except.ok (Json.obj [
      ("success", Json.bool true),
      ("output", Json.obj [
        ("reportId", paramGet params "reportId"),
        ("reportData", data),
        ("metadata", opMeta "run_report"),
        ("success", Json.bool true)])])

/-- `salesforceRunReportAsyncTool.transformResponse` (reports.ts 226-241).
The success path reads `data.id`, `data.status`, `data.requestDate`, which
throws a `TypeError` when `data` is `null`. -/
def runReportAsyncTransform (ok : Bool) (body : Option Json) (params : List (String × Json)) : Except JsErr Json :=
  match body with
  | none => Except.error JsErr.parseError
  | some data =>
    if !ok then Except.error (raiseErr data "Failed to run report asynchronously")
    else
      match data with
      | Json.null => Except.error JsErr.typeError
      | _ => Except.ok (Json.obj [
          ("success", Json.bool true),
          ("output", Json.obj [
            ("reportId", paramGet params "reportId"),
            ("instanceId", jsGet data "id"),
            ("status", jsGet data "status"),
            ("requestDate", jsGet data "requestDate"),
            ("metadata", opMeta "run_report_async"),
            ("success", Json.bool true)])])

/-- `salesforceGetReportInstanceTool.transformResponse` (reports.ts 285-299). -/
def getReportInstanceTransform (ok : Bool) (body : Option Json) (params : List (String × Json)) : Except JsErr Json :=
  match body with
  | none => Except.error JsErr.parseError
  | some data =>
    if !ok then Except.error (raiseErr data "Failed to get report instance")
    else Except.ok (Json.obj [
      ("success", Json.bool true),
      ("output", Json.obj [
        ("reportId", paramGet params "reportId"),
        ("instanceId", paramGet params "instanceId"),
        ("reportData", data),
        ("metadata", opMeta "get_report_instance"),
        ("success", Json.bool true)])])

/-- `salesforceListReportInstancesTool.transformResponse` (reports.ts 337-350). -/
def listReportInstancesTransform (ok : Bool) (body : Option Json) (params : List (String × Json)) : Except JsErr Json :=
  match body with
  | none => Except.error JsErr.parseError
  | some data =>
    if !ok then Except.error (raiseErr data "Failed to list report instances")
    else Except.ok (Json.obj [
      ("success", Json.bool true),
      ("output", Json.obj [
        ("reportId", paramGet params "reportId"),
        ("instances", data),
        ("metadata", opMeta "list_report_instances"),
        ("success", Json.bool true)])])

/-- `salesforceDeleteReportInstanceTool.transformResponse` (reports.ts
393-407).  The body is read only on a non-OK response, defensively:
`response.json().catch(() => ({}))`. -/
def deleteReportInstanceTransform (ok : Bool) (body : Option Json) (params : List (String × Json)) : Except JsErr Json :=
  if !ok then Except.error (raiseErr (body.getD (Json.obj [])) "Failed to delete report instance")
  else Except.ok (Json.obj [
    ("success", Json.bool true),
    ("output", Json.obj [
      ("reportId", paramGet params "reportId"),
      ("instanceId", paramGet params "instanceId"),
      ("deleted", Json.bool true),
      ("metadata", opMeta "delete_report_instance")])])

/-- `salesforceRunReportWithFiltersTool.transformResponse` (reports.ts 458-471). -/
def runReportWithFiltersTransform (ok : Bool) (body : Option Json) (params : List (String × Json)) : Except JsErr Json :=
  match body with
  | none => Except.error JsErr.parseError
  | some data =>
    if !ok then Except.error (raiseErr data "Failed to run report with filters")
    else Except.ok (Json.obj [
      ("success", Json.bool true),
      ("output", Json.obj [
        ("reportId", paramGet params "reportId"),
        ("reportData", data),
        ("metadata", opMeta "run_report_with_filters"),
        ("success", Json.bool true)])])

/-- `salesforceCreateReportTool.transformResponse` (reports.ts 523-536).
The success path reads `data.id` (a `TypeError` when `data` is `null`). -/
def createReportTransform (ok : Bool) (body : Option Json) (_params : List (String × Json)) : Except JsErr Json :=
  match body with
  | none => Except.error JsErr.parseError
  | some data =>
    if !ok then Except.error (raiseErr data "Failed to create report")
    else
      match data with
      | Json.null => Except.error JsErr.typeError
      | _ => Except.ok (Json.obj [
          ("success", Json.bool true),
          ("output", Json.obj [
            ("reportId", jsGet data "id"),
            ("report", data),
            ("created", Json.bool true),
            ("metadata", opMeta "create_report"),
            ("success", Json.bool true)])])

/-- `salesforceUpdateReportTool.transformResponse` (reports.ts 591-603). -/
def updateReportTransform (ok : Bool) (body : Option Json) (params : List (String × Json)) : Except JsErr Json :=
  match body with
  | none => Except.error JsErr.parseError
  | some data =>
    if !ok then Except.error (raiseErr data "Failed to update report")
    else Except.ok (Json.obj [
      ("success", Json.bool true),
      ("output", Json.obj [
        ("reportId", paramGet params "reportId"),
        ("report", data),
        ("updated", Json.bool true),
        ("metadata", opMeta "update_report"),
        ("success", Json.bool true)])])

/-- `salesforceDeleteReportTool.transformResponse` (reports.ts 641-653). -/
def deleteReportTransform (ok : Bool) (body : Option Json) (params : List (String × Json)) : Except JsErr Json :=
  if !ok then Except.error (raiseErr (body.getD (Json.obj [])) "Failed to delete report")
  else Except.ok (Json.obj [
    ("success", Json.bool true),
    ("output", Json.obj [
      ("reportId", paramGet params "reportId"),
      ("deleted", Json.bool true),
      ("metadata", opMeta "delete_report")])])

/-- `salesforceListDashboardsTool.transformResponse` (dashboards.ts 61-73). -/
def listDashboardsTransform (ok : Bool) (body : Option Json) (_params : List (String × Json)) : Except JsErr Json :=
  match body with
  | none => Except.error JsErr.parseError
  | some data =>
    if !ok then Except.error (raiseErr data "Failed to list dashboards")
    else Except.ok (Json.obj [
      ("success", Json.bool true),
      ("output", Json.obj [
        ("dashboards", data),
        ("metadata", opMeta "list_dashboards"),
        ("success", Json.bool true)])])

/-- `salesforceGetDashboardTool.transformResponse` (dashboards.ts 111-123). -/
def getDashboardTransform (ok : Bool) (body : Option Json) (params : List (String × Json)) : Except JsErr Json :=
  match body with
  | none => Except.error JsErr.parseError
  | some data =>
    if !ok then Except.error (raiseErr data "Failed to get dashboard")
    else Except.ok (Json.obj [
      ("success", Json.bool true),
      ("output", Json.obj [
        ("dashboardId", paramGet params "dashboardId"),
        ("dashboard", data),
        ("metadata", opMeta "get_dashboard"),
        ("success", Json.bool true)])])

/-- `salesforceRefreshDashboardTool.transformResponse` (dashboards.ts 161-174). -/
def refreshDashboardTransform (ok : Bool) (body : Option Json) (params : List (String × Json)) : Except JsErr Json :=
  match body with
  | none => Except.error JsErr.parseError
  | some data =>
    if !ok then Except.error (raiseErr data "Failed to refresh dashboard")
    else Except.ok (Json.obj [
      ("success", Json.bool true),
      ("output", Json.obj [
        ("dashboardId", paramGet params "dashboardId"),
        ("dashboardData", data),
        ("metadata", opMeta "refresh_dashboard"),
        ("success", Json.bool true)])])

/-- `salesforceCloneDashboardTool.transformResponse` (dashboards.ts 234-249).
The success path reads `data.id` (a `TypeError` when `data` is `null`). -/
def cloneDashboardTransform (ok : Bool) (body : Option Json) (params : List (String × Json)) : Except JsErr Json :=
  match body with
  | none => Except.error JsErr.parseError
  | some data =>
    if !ok then Except.error (raiseErr data "Failed to clone dashboard")
    else
      match data with
      | Json.null => Except.error JsErr.typeError
      | _ => Except.ok (Json.obj [
          ("success", Json.bool true),
          ("output", Json.obj [
            ("sourceDashboardId", paramGet params "dashboardId"),
            ("newDashboardId", jsGet data "id"),
            ("name", paramGet params "name"),
            ("dashboard", data),
            ("metadata", opMeta "clone_dashboard"),
            ("success", Json.bool true)])])

/-- `salesforceDeleteDashboardTool.transformResponse` (dashboards.ts 286-298). -/
def deleteDashboardTransform (ok : Bool) (body : Option Json) (params : List (String × Json)) : Except JsErr Json :=
  if !ok then Except.error (raiseErr (body.getD (Json.obj [])) "Failed to delete dashboard")
  else Except.ok (Json.obj [
    ("success", Json.bool true),
    ("output", Json.obj [
      ("dashboardId", paramGet params "dashboardId"),
      ("deleted", Json.bool true),
      ("metadata", opMeta "delete_dashboard")])])

/-- `salesforceGetDashboardComponentTool.transformResponse` (dashboards.ts 343-356). -/
def getDashboardComponentTransform (ok : Bool) (body : Option Json) (params : List (String × Json)) : Except JsErr Json :=
  match body with
  | none => Except.error JsErr.parseError
  | some data =>
    if !ok then Except.error (raiseErr data "Failed to get dashboard component")
    else Except.ok (Json.obj [
      ("success", Json.bool true),
      ("output", Json.obj [
        ("dashboardId", paramGet params "dashboardId"),
        ("componentId", paramGet params "componentId"),
        ("componentData", data),
        ("metadata", opMeta "get_dashboard_component"),
        ("success", Json.bool true)])])

/-- A tool descriptor, as far as the claims need it: its id, the operation
name it stamps into its output, whether it is one of the three delete tools
(whose transformers parse the body defensively), its fixed fallback error
message, and its embedded response transformer. -/
structure ToolModel where
  id : String
  op : String
  isDelete : Bool
  fallback : String
  transform : Bool → Option Json → List (String × Json) → Except JsErr Json

/-- All tools defined in `reports.ts` and `dashboards.ts`. -/
def allTools : List ToolModel := [
  ⟨"salesforce_list_reports", "list_reports", false, "Failed to list reports", listReportsTransform⟩,
  ⟨"salesforce_get_report_metadata", "get_report_metadata", false, "Failed to get report metadata", getReportMetadataTransform⟩,
  ⟨"salesforce_run_report", "run_report", false, "Failed to run report", runReportTransform⟩,
  ⟨"salesforce_run_report_async", "run_report_async", false, "Failed to run report asynchronously", runReportAsyncTransform⟩,
  ⟨"salesforce_get_report_instance", "get_report_instance", false, "Failed to get report instance", getReportInstanceTransform⟩,
  ⟨"salesforce_list_report_instances", "list_report_instances", false, "Failed to list report instances", listReportInstancesTransform⟩,
  ⟨"salesforce_delete_report_instance", "delete_report_instance", true, "Failed to delete report instance", deleteReportInstanceTransform⟩,
  ⟨"salesforce_run_report_with_filters", "run_report_with_filters", false, "Failed to run report with filters", runReportWithFiltersTransform⟩,
  ⟨"salesforce_create_report", "create_report", false, "Failed to create report", createReportTransform⟩,
  ⟨"salesforce_update_report", "update_report", false, "Failed to update report", updateReportTransform⟩,
  ⟨"salesforce_delete_report", "delete_report", true, "Failed to delete report", deleteReportTransform⟩,
  ⟨"salesforce_list_dashboards", "list_dashboards", false, "Failed to list dashboards", listDashboardsTransform⟩,
  ⟨"salesforce_get_dashboard", "get_dashboard", false, "Failed to get dashboard", getDashboardTransform⟩,
  ⟨"salesforce_refresh_dashboard", "refresh_dashboard", false, "Failed to refresh dashboard", refreshDashboardTransform⟩,
  ⟨"salesforce_clone_dashboard", "clone_dashboard", false, "Failed to clone dashboard", cloneDashboardTransform⟩,
  ⟨"salesforce_delete_dashboard", "delete_dashboard", true, "Failed to delete dashboard", deleteDashboardTransform⟩,
  ⟨"salesforce_get_dashboard_component", "get_dashboard_component", false, "Failed to get dashboard component", getDashboardComponentTransform⟩]

/-! ### Request URL builders of the two report-running tools -/

/-- `salesforceRunReportTool.request.url` (reports.ts 156-161). -/
def runReportUrl (idToken : Option String) (instanceUrl : Option String)
    (reportId : String) (includeDetails : Option String) : Except String String :=
  match (getInstanceUrl idToken instanceUrl).result with
  | Except.error e => Except.error e
  | Except.ok iu =>
    let includeDetailsFlag : Bool := includeDetails != some "false"
    Except.ok (iu ++ "/services/data/v59.0/analytics/reports/" ++ reportId ++
      "?includeDetails=" ++ (if includeDetailsFlag then "true" else "false"))

/-- `salesforceRunReportAsyncTool.request.url` (reports.ts 213-218). -/
def runReportAsyncUrl (idToken : Option String) (instanceUrl : Option String)
    (reportId : String) (includeDetails : Option String) : Except String String :=
  match (getInstanceUrl idToken instanceUrl).result with
  | Except.error e => Except.error e
  | Except.ok iu =>
    let includeDetailsFlag : Bool := includeDetails != some "false"
    Except.ok (iu ++ "/services/data/v59.0/analytics/reports/" ++ reportId ++
      "/instances?includeDetails=" ++ (if includeDetailsFlag then "true" else "false"))

/-! ### The block's operation dispatcher and parameter sanitizer
(`SalesforceBlock.tools.config`, `src/unnamed/part_000` lines 556-655) -/

/-- `SalesforceBlock.tools.config.tool`: the `switch` on `params.operation`.
The `default` branch throws; this is the spec's `UnknownOperationError`. -/
def resolveTool (operation : String) : Except String String :=
  if operation = "get_accounts" then Except.ok "salesforce_get_accounts"
  else if operation = "create_account" then Except.ok "salesforce_create_account"
  else if operation = "update_account" then Except.ok "salesforce_update_account"
  else if operation = "delete_account" then Except.ok "salesforce_delete_account"
  else if operation = "get_contacts" then Except.ok "salesforce_get_contacts"
  else if operation = "create_contact" then Except.ok "salesforce_create_contact"
  else if operation = "update_contact" then Except.ok "salesforce_update_contact"
  else if operation = "delete_contact" then Except.ok "salesforce_delete_contact"
  else if operation = "get_leads" then Except.ok "salesforce_get_leads"
  else if operation = "create_lead" then Except.ok "salesforce_create_lead"
  else if operation = "update_lead" then Except.ok "salesforce_update_lead"
  else if operation = "delete_lead" then Except.ok "salesforce_delete_lead"
  else if operation = "get_opportunities" then Except.ok "salesforce_get_opportunities"
  else if operation = "create_opportunity" then Except.ok "salesforce_create_opportunity"
  else if operation = "update_opportunity" then Except.ok "salesforce_update_opportunity"
  else if operation = "delete_opportunity" then Except.ok "salesforce_delete_opportunity"
  else if operation = "get_cases" then Except.ok "salesforce_get_cases"
  else if operation = "create_case" then Except.ok "salesforce_create_case"
  else if operation = "update_case" then Except.ok "salesforce_update_case"
  else if operation = "delete_case" then Except.ok "salesforce_delete_case"
  else if operation = "get_tasks" then Except.ok "salesforce_get_tasks"
  else if operation = "create_task" then Except.ok "salesforce_create_task"
  else if operation = "update_task" then Except.ok "salesforce_update_task"
  else if operation = "delete_task" then Except.ok "salesforce_delete_task"
  else if operation = "list_reports" then Except.ok "salesforce_list_reports"
  else if operation = "get_report_metadata" then Except.ok "salesforce_get_report_metadata"
  else if operation = "run_report" then Except.ok "salesforce_run_report"
  else if operation = "run_report_async" then Except.ok "salesforce_run_report_async"
  else if operation = "get_report_instance" then Except.ok "salesforce_get_report_instance"
  else if operation = "list_report_instances" then Except.ok "salesforce_list_report_instances"
  else if operation = "delete_report_instance" then Except.ok "salesforce_delete_report_instance"
  else if operation = "run_report_with_filters" then Except.ok "salesforce_run_report_with_filters"
  else if operation = "create_report" then Except.ok "salesforce_create_report"
  else if operation = "update_report" then Except.ok "salesforce_update_report"
  else if operation = "delete_report" then Except.ok "salesforce_delete_report"
  else if operation = "list_dashboards" then Except.ok "salesforce_list_dashboards"
  else if operation = "get_dashboard" then Except.ok "salesforce_get_dashboard"
  else if operation = "refresh_dashboard" then Except.ok "salesforce_refresh_dashboard"
  else if operation = "clone_dashboard" then Except.ok "salesforce_clone_dashboard"
  else if operation = "delete_dashboard" then Except.ok "salesforce_delete_dashboard"
  else if operation = "get_dashboard_component" then Except.ok "salesforce_get_dashboard_component"
  else Except.error ("Unknown operation: " ++ operation)

/-- The operation-to-tool mapping as a table, one entry per `case` of the
source's `switch`, in source order. -/
def operationToolTable : List (String × String) := [
  ("get_accounts", "salesforce_get_accounts"),
  ("create_account", "salesforce_create_account"),
  ("update_account", "salesforce_update_account"),
  ("delete_account", "salesforce_delete_account"),
  ("get_contacts", "salesforce_get_contacts"),
  ("create_contact", "salesforce_create_contact"),
  ("update_contact", "salesforce_update_contact"),
  ("delete_contact", "salesforce_delete_contact"),
  ("get_leads", "salesforce_get_leads"),
  ("create_lead", "salesforce_create_lead"),
  ("update_lead", "salesforce_update_lead"),
  ("delete_lead", "salesforce_delete_lead"),
  ("get_opportunities", "salesforce_get_opportunities"),
  ("create_opportunity", "salesforce_create_opportunity"),
  ("update_opportunity", "salesforce_update_opportunity"),
  ("delete_opportunity", "salesforce_delete_opportunity"),
  ("get_cases", "salesforce_get_cases"),
  ("create_case", "salesforce_create_case"),
  ("update_case", "salesforce_update_case"),
  ("delete_case", "salesforce_delete_case"),
  ("get_tasks", "salesforce_get_tasks"),
  ("create_task", "salesforce_create_task"),
  ("update_task", "salesforce_update_task"),
  ("delete_task", "salesforce_delete_task"),
  ("list_reports", "salesforce_list_reports"),
  ("get_report_metadata", "salesforce_get_report_metadata"),
  ("run_report", "salesforce_run_report"),
  ("run_report_async", "salesforce_run_report_async"),
  ("get_report_instance", "salesforce_get_report_instance"),
  ("list_report_instances", "salesforce_list_report_instances"),
  ("delete_report_instance", "salesforce_delete_report_instance"),
  ("run_report_with_filters", "salesforce_run_report_with_filters"),
  ("create_report", "salesforce_create_report"),
  ("update_report", "salesforce_update_report"),
  ("delete_report", "salesforce_delete_report"),
  ("list_dashboards", "salesforce_list_dashboards"),
  ("get_dashboard", "salesforce_get_dashboard"),
  ("refresh_dashboard", "salesforce_refresh_dashboard"),
  ("clone_dashboard", "salesforce_clone_dashboard"),
  ("delete_dashboard", "salesforce_delete_dashboard"),
  ("get_dashboard_component", "salesforce_get_dashboard_component")]

/-- Whether a parameter value survives the sanitizer's filter
(`value !== undefined && value !== null && value !== ''`; only the empty
string is excluded by the third strict comparison). -/
def keepParamValue : Json → Bool
  | Json.undef => false
  | Json.null => false
  | Json.str s => s != ""
  | _ => true

/-- `SalesforceBlock.tools.config.params` (`src/unnamed/part_000` 645-654):
destructure `credential` and `operation` out of the bag, start the clean bag
with `credential` (whatever its value, even `undefined`), then copy every
remaining entry whose value passes the filter, in insertion order. -/
def sanitizeParams (params : List (String × Json)) : List (String × Json) :=
  let credential := (lookupLast params "credential").getD Json.undef
  let rest := params.filter (fun kv => kv.1 != "credential" && kv.1 != "operation")
  ("credential", credential) :: rest.filter (fun kv => keepParamValue kv.2)

/-- The sanitizer as the claim words it: the output bag starts with
`credential` carrying the input's `credential` value verbatim, followed by
exactly those input entries that are neither `credential` nor `operation`
and whose value is not `undefined`, `null`, or the empty string, each
unchanged and in the input bag's order. -/
def sanitizeParamsSpec (params : List (String × Json)) : List (String × Json) :=
  ("credential", (lookupLast params "credential").getD Json.undef) ::
    params.filter (fun kv => kv.1 != "credential" && kv.1 != "operation" && keepParamValue kv.2)

/-- The success envelope the run_report transformer produces for response
data `[]` and the parameter bag `reportId = "R1"` (a concrete instance used
to exercise the envelope theorem). -/
def runReportEnvelopeExample : Json :=
  Json.obj [("success", Json.bool true),
    ("output", Json.obj [
      ("reportId", Json.str "R1"),
      ("reportData", Json.arr []),
      ("metadata", opMeta "run_report"),
      ("success", Json.bool true)])]

/-- Decidable equality for dispatch results (not derived in the core
library for `Except`). -/
instance : DecidableEq (Except String String) := fun a b =>
  match a, b with
  | Except.ok x, Except.ok y =>
    if h : x = y then isTrue (by rw [h])
    else isFalse (fun he => h (Except.ok.inj he))
  | Except.error x, Except.error y =>
    if h : x = y then isTrue (by rw [h])
    else isFalse (fun he => h (Except.error.inj he))
  | Except.ok _, Except.error _ => isFalse (fun he => Except.noConfusion he)
  | Except.error _, Except.ok _ => isFalse (fun he => Except.noConfusion he)

/-! ### Helper lemmas -/

theorem decodePayload_empty : decodePayload "" = none := rfl

theorem originMatch_empty : originMatch "" = none := rfl

/-- A token that decodes must be nonempty (so it passes the `if (idToken)`
truthiness check). -/
theorem decode_ne_empty {tok : String} {payload : Json}
    (h : decodePayload tok = some payload) : tok ≠ "" := by
  intro he
  subst he
  rw [decodePayload_empty] at h
  exact Option.noConfusion h

/-- A string with a leading https origin is nonempty (hence truthy). -/
theorem originMatch_ne_empty {s m : String} (h : originMatch s = some m) : s ≠ "" := by
  intro he
  subst he
  rw [originMatch_empty] at h
  exact Option.noConfusion h

/-- C3: with no explicit instance URL, a token whose decoded payload has a
`profile` value beginning with an https origin resolves to that leading
origin, with no login-host exclusion (the conclusion holds for every matched
origin `m`, including `https://login.salesforce.com`), and nothing is
logged. -/
theorem profile_origin_resolution (tok : String) (payload : Json) (s m : String)
    (h1 : decodePayload tok = some payload)
    (h2 : jsGet payload "profile" = Json.str s)
    (h3 : originMatch s = some m) :
    getInstanceUrl (some tok) none = ⟨Except.ok m, 0⟩ := by
  have htok : tok ≠ "" := decode_ne_empty h1
  have hs : s ≠ "" := originMatch_ne_empty h3
  have hex : extractUrl payload = TryResult.ok m := by
    cases payload <;> simp_all [jsGet, extractUrl, jsTruthy]
  simp [getInstanceUrl, jsTruthyStr, htok, tokenTry, h1, hex]

/-- C3 witness: a token whose payload is
`{"profile":"https://login.salesforce.com/id/abc"}` resolves to the login
host itself. -/
theorem profile_origin_resolution_w :
    getInstanceUrl (some "hdr.eyJwcm9maWxlIjoiaHR0cHM6Ly9sb2dpbi5zYWxlc2ZvcmNlLmNvbS9pZC9hYmMifQ==.sig") none =
      ⟨Except.ok "https://login.salesforce.com", 0⟩ :=
  profile_origin_resolution
    "hdr.eyJwcm9maWxlIjoiaHR0cHM6Ly9sb2dpbi5zYWxlc2ZvcmNlLmNvbS9pZC9hYmMifQ==.sig"
    (Json.obj [("profile", Json.str "https://login.salesforce.com/id/abc")])
    "https://login.salesforce.com/id/abc" "https://login.salesforce.com"
    rfl rfl rfl

/-- C2: with no explicit instance URL, a token whose decoded payload has no
`profile` field but a `sub` value beginning with an https origin resolves to
that origin when it is not exactly the login host, and fails with the
configuration error when it is exactly the login host (nothing logged in
either case). -/
theorem sub_origin_resolution (tok : String) (payload : Json) (s m : String)
    (h1 : decodePayload tok = some payload)
    (h2 : jsGet payload "profile" = Json.undef)
    (h3 : jsGet payload "sub" = Json.str s)
    (h4 : originMatch s = some m) :
    (m ≠ loginHost → getInstanceUrl (some tok) none = ⟨Except.ok m, 0⟩) ∧
    (m = loginHost → getInstanceUrl (some tok) none = ⟨Except.error instanceUrlRequiredMsg, 0⟩) := by
  have htok : tok ≠ "" := decode_ne_empty h1
  have hs : s ≠ "" := originMatch_ne_empty h4
  constructor
  · intro hm
    have hex : extractUrl payload = TryResult.ok m := by
      cases payload <;> simp_all [jsGet, extractUrl, jsTruthy]
    simp [getInstanceUrl, jsTruthyStr, htok, tokenTry, h1, hex]
  · intro hm
    have hex : extractUrl payload = TryResult.noUrl := by
      cases payload <;> simp_all [jsGet, extractUrl, jsTruthy]
    simp [getInstanceUrl, jsTruthyStr, htok, tokenTry, h1, hex]

/-- C2 witness: the tenant token resolves to its origin and the login-host
token fails, exercising both branches. -/
theorem sub_origin_resolution_w :
    getInstanceUrl (some "hdr.eyJzdWIiOiJodHRwczovL2FjbWUubXkuc2FsZXNmb3JjZS5jb20vaWQveHl6In0=.sig") none =
      ⟨Except.ok "https://acme.my.salesforce.com", 0⟩ ∧
    getInstanceUrl (some "hdr.eyJzdWIiOiJodHRwczovL2xvZ2luLnNhbGVzZm9yY2UuY29tL2lkL3h5eiJ9.sig") none =
      ⟨Except.error instanceUrlRequiredMsg, 0⟩ :=
  ⟨(sub_origin_resolution
      "hdr.eyJzdWIiOiJodHRwczovL2FjbWUubXkuc2FsZXNmb3JjZS5jb20vaWQveHl6In0=.sig"
      (Json.obj [("sub", Json.str "https://acme.my.salesforce.com/id/xyz")])
      "https://acme.my.salesforce.com/id/xyz" "https://acme.my.salesforce.com"
      rfl rfl rfl rfl).1 (by decide),
   (sub_origin_resolution
      "hdr.eyJzdWIiOiJodHRwczovL2xvZ2luLnNhbGVzZm9yY2UuY29tL2lkL3h5eiJ9.sig"
      (Json.obj [("sub", Json.str "https://login.salesforce.com/id/xyz")])
      "https://login.salesforce.com/id/xyz" "https://login.salesforce.com"
      rfl rfl rfl rfl).2 rfl⟩

/-- C4: a non-empty explicit instance URL is returned unchanged, whatever
the token argument is, with no decoding and no logging. -/
theorem explicit_url_wins (url : String) (h : url ≠ "") (idToken : Option String) :
    getInstanceUrl idToken (some url) = ⟨Except.ok url, 0⟩ := by
  simp [getInstanceUrl, jsTruthyStr, h]

/-- C4 witness: an explicit URL wins even over a malformed token. -/
theorem explicit_url_wins_w :
    ("https://acme.my.salesforce.com" : String) ≠ "" ∧
    getInstanceUrl (some "not-a-token") (some "https://acme.my.salesforce.com") =
      ⟨Except.ok "https://acme.my.salesforce.com", 0⟩ :=
  ⟨by decide, explicit_url_wins "https://acme.my.salesforce.com" (by decide) (some "not-a-token")⟩

/-- C5 (amended): with no explicit instance URL, a present (nonempty) token
whose payload does not decode (not a dotted token, not valid base64, not
valid UTF-8, or not valid JSON) is caught, logged exactly once, and the
resolver fails with the error message
`Salesforce instance URL is required but not provided`. -/
theorem malformed_token_fails (tok : String) (h0 : tok ≠ "")
    (h1 : decodePayload tok = none) :
    getInstanceUrl (some tok) none = ⟨Except.error instanceUrlRequiredMsg, 1⟩ := by
  simp [getInstanceUrl, jsTruthyStr, h0, tokenTry, h1]

/-- C5 witness: a token whose payload segment is not base64. -/
theorem malformed_token_fails_w :
    ("x.!!!.y" : String) ≠ "" ∧ decodePayload "x.!!!.y" = none ∧
    getInstanceUrl (some "x.!!!.y") none = ⟨Except.error instanceUrlRequiredMsg, 1⟩ :=
  ⟨by decide, rfl, malformed_token_fails "x.!!!.y" (by decide) rfl⟩

/-- C5 counterexample: the thrown message is
`Salesforce instance URL is required but not provided`, which is not the
message `instance URL required but not provided` stated by the claim. -/
theorem malformed_token_message_mismatch :
    getInstanceUrl (some "aaa.###.bbb") none =
      ⟨Except.error "Salesforce instance URL is required but not provided", 1⟩ ∧
    "Salesforce instance URL is required but not provided" ≠
      "instance URL required but not provided" :=
  ⟨rfl, by decide⟩

/-- C10: for both report-running tools, when instance resolution succeeds
the built URL carries `includeDetails=false` exactly when the
`includeDetails` input is the string `false`, and `includeDetails=true` for
every other input (absent or any other string). -/
theorem includeDetails_query_flag (idToken instanceUrl : Option String)
    (reportId : String) (includeDetails : Option String) (iu : String)
    (h : (getInstanceUrl idToken instanceUrl).result = Except.ok iu) :
    runReportUrl idToken instanceUrl reportId includeDetails =
      Except.ok (iu ++ "/services/data/v59.0/analytics/reports/" ++ reportId ++
        "?includeDetails=" ++ (if includeDetails = some "false" then "false" else "true")) ∧
    runReportAsyncUrl idToken instanceUrl reportId includeDetails =
      Except.ok (iu ++ "/services/data/v59.0/analytics/reports/" ++ reportId ++
        "/instances?includeDetails=" ++ (if includeDetails = some "false" then "false" else "true")) := by
  unfold runReportUrl runReportAsyncUrl
  rw [h]
  by_cases hid : includeDetails = some "false" <;> simp [hid]

/-- C10 witness: with an explicit instance URL, the input `False` (wrong
case) still yields `includeDetails=true`. -/
theorem includeDetails_query_flag_w :
    runReportUrl none (some "https://acme.my.salesforce.com") "R1" (some "False") =
      Except.ok ("https://acme.my.salesforce.com" ++ "/services/data/v59.0/analytics/reports/" ++ "R1" ++
        "?includeDetails=" ++ (if (some "False" : Option String) = some "false" then "false" else "true")) ∧
    runReportAsyncUrl none (some "https://acme.my.salesforce.com") "R1" (some "False") =
      Except.ok ("https://acme.my.salesforce.com" ++ "/services/data/v59.0/analytics/reports/" ++ "R1" ++
        "/instances?includeDetails=" ++ (if (some "False" : Option String) = some "false" then "false" else "true")) :=
  includeDetails_query_flag none (some "https://acme.my.salesforce.com") "R1" (some "False")
    "https://acme.my.salesforce.com" rfl

/-- Lookup in a field list none of whose keys is `k` yields nothing. -/
theorem lookupLast_eq_none {l : List (String × Json)} {k : String}
    (h : ∀ kv ∈ l, kv.1 ≠ k) : lookupLast l k = none := by
  induction l with
  | nil => rfl
  | cons kv rest ih =>
    obtain ⟨k1, v1⟩ := kv
    have hrest : lookupLast rest k = none :=
      ih (fun x hx => h x (List.mem_cons_of_mem _ hx))
    have hk1 : k1 ≠ k := h (k1, v1) (List.mem_cons_self _ _)
    simp [lookupLast, hrest, hk1]

/-- The sanitizer equals its single-filter formulation. -/
theorem sanitizeParams_eq_spec (params : List (String × Json)) :
    sanitizeParams params = sanitizeParamsSpec params := by
  simp only [sanitizeParams, sanitizeParamsSpec]
  rw [List.filter_filter]
  congr 1
  apply List.filter_congr
  intro kv _
  cases h1 : kv.1 != "credential" <;> cases h2 : kv.1 != "operation" <;>
    cases h3 : keepParamValue kv.2 <;> simp [h1, h2, h3]

/-- C6: the sanitized bag's first entry is `credential` with the input's
value verbatim, and the rest are exactly the input's non-`credential`,
non-`operation` entries whose values survive the emptiness filter, values
unchanged and in input order; on the claim's example bag this yields
`credential` and `limit` only. -/
theorem sanitizeParams_contract :
    (∀ params : List (String × Json), sanitizeParams params = sanitizeParamsSpec params) ∧
    sanitizeParams [("credential", Json.str "c1"), ("operation", Json.str "get_accounts"),
        ("accountId", Json.str ""), ("limit", Json.str "50")] =
      [("credential", Json.str "c1"), ("limit", Json.str "50")] :=
  ⟨sanitizeParams_eq_spec, rfl⟩

/-- C9: sanitizing is idempotent. -/
theorem sanitizeParams_idempotent (params : List (String × Json)) :
    sanitizeParams (sanitizeParams params) = sanitizeParams params := by
  rw [sanitizeParams_eq_spec, sanitizeParams_eq_spec]
  unfold sanitizeParamsSpec
  set q : String × Json → Bool :=
    fun kv => kv.1 != "credential" && kv.1 != "operation" && keepParamValue kv.2 with hq
  set l := params.filter q with hl
  set v := (lookupLast params "credential").getD Json.undef with hv
  have hmem : ∀ kv ∈ l, q kv = true := fun kv hkv => (List.mem_filter.mp hkv).2
  have hk : ∀ kv ∈ l, kv.1 ≠ "credential" := by
    intro kv hkv
    have h := hmem kv hkv
    rw [hq] at h
    simp only [Bool.and_eq_true, bne_iff_ne] at h
    exact h.1.1
  have hnone : lookupLast l "credential" = none := lookupLast_eq_none hk
  have hhead : lookupLast (("credential", v) :: l) "credential" = some v := by
    simp [lookupLast, hnone]
  have hqhead : q ("credential", v) = false := by
    rw [hq]; simp
  have hfilter : (("credential", v) :: l).filter q = l := by
    rw [List.filter_cons_of_neg (by simp [hqhead]), List.filter_eq_self.mpr hmem]
  rw [hhead, hfilter]
  rfl

set_option maxHeartbeats 1000000 in
/-- C7: every known operation tag dispatches to its single tool id, and
every other string fails with the unknown-operation error (no fallback
tool). -/
theorem operation_dispatch :
    (∀ p ∈ operationToolTable, resolveTool p.1 = Except.ok p.2) ∧
    (∀ s : String, s ∉ operationToolTable.map Prod.fst →
      resolveTool s = Except.error ("Unknown operation: " ++ s)) := by
  constructor
  · decide
  · intro s hs
    have h1 : s ≠ "get_accounts" := fun he => hs (by rw [he]; decide)
    have h2 : s ≠ "create_account" := fun he => hs (by rw [he]; decide)
    have h3 : s ≠ "update_account" := fun he => hs (by rw [he]; decide)
    have h4 : s ≠ "delete_account" := fun he => hs (by rw [he]; decide)
    have h5 : s ≠ "get_contacts" := fun he => hs (by rw [he]; decide)
    have h6 : s ≠ "create_contact" := fun he => hs (by rw [he]; decide)
    have h7 : s ≠ "update_contact" := fun he => hs (by rw [he]; decide)
    have h8 : s ≠ "delete_contact" := fun he => hs (by rw [he]; decide)
    have h9 : s ≠ "get_leads" := fun he => hs (by rw [he]; decide)
    have h10 : s ≠ "create_lead" := fun he => hs (by rw [he]; decide)
    have h11 : s ≠ "update_lead" := fun he => hs (by rw [he]; decide)
    have h12 : s ≠ "delete_lead" := fun he => hs (by rw [he]; decide)
    have h13 : s ≠ "get_opportunities" := fun he => hs (by rw [he]; decide)
    have h14 : s ≠ "create_opportunity" := fun he => hs (by rw [he]; decide)
    have h15 : s ≠ "update_opportunity" := fun he => hs (by rw [he]; decide)
    have h16 : s ≠ "delete_opportunity" := fun he => hs (by rw [he]; decide)
    have h17 : s ≠ "get_cases" := fun he => hs (by rw [he]; decide)
    have h18 : s ≠ "create_case" := fun he => hs (by rw [he]; decide)
    have h19 : s ≠ "update_case" := fun he => hs (by rw [he]; decide)
    have h20 : s ≠ "delete_case" := fun he => hs (by rw [he]; decide)
    have h21 : s ≠ "get_tasks" := fun he => hs (by rw [he]; decide)
    have h22 : s ≠ "create_task" := fun he => hs (by rw [he]; decide)
    have h23 : s ≠ "update_task" := fun he => hs (by rw [he]; decide)
    have h24 : s ≠ "delete_task" := fun he => hs (by rw [he]; decide)
    have h25 : s ≠ "list_reports" := fun he => hs (by rw [he]; decide)
    have h26 : s ≠ "get_report_metadata" := fun he => hs (by rw [he]; decide)
    have h27 : s ≠ "run_report" := fun he => hs (by rw [he]; decide)
    have h28 : s ≠ "run_report_async" := fun he => hs (by rw [he]; decide)
    have h29 : s ≠ "get_report_instance" := fun he => hs (by rw [he]; decide)
    have h30 : s ≠ "list_report_instances" := fun he => hs (by rw [he]; decide)
    have h31 : s ≠ "delete_report_instance" := fun he => hs (by rw [he]; decide)
    have h32 : s ≠ "run_report_with_filters" := fun he => hs (by rw [he]; decide)
    have h33 : s ≠ "create_report" := fun he => hs (by rw [he]; decide)
    have h34 : s ≠ "update_report" := fun he => hs (by rw [he]; decide)
    have h35 : s ≠ "delete_report" := fun he => hs (by rw [he]; decide)
    have h36 : s ≠ "list_dashboards" := fun he => hs (by rw [he]; decide)
    have h37 : s ≠ "get_dashboard" := fun he => hs (by rw [he]; decide)
    have h38 : s ≠ "refresh_dashboard" := fun he => hs (by rw [he]; decide)
    have h39 : s ≠ "clone_dashboard" := fun he => hs (by rw [he]; decide)
    have h40 : s ≠ "delete_dashboard" := fun he => hs (by rw [he]; decide)
    have h41 : s ≠ "get_dashboard_component" := fun he => hs (by rw [he]; decide)
    simp only [resolveTool]
    rw [if_neg h1, if_neg h2, if_neg h3, if_neg h4, if_neg h5, if_neg h6, if_neg h7, if_neg h8, if_neg h9, if_neg h10, if_neg h11, if_neg h12, if_neg h13, if_neg h14, if_neg h15, if_neg h16, if_neg h17, if_neg h18, if_neg h19, if_neg h20, if_neg h21, if_neg h22, if_neg h23, if_neg h24, if_neg h25, if_neg h26, if_neg h27, if_neg h28, if_neg h29, if_neg h30, if_neg h31, if_neg h32, if_neg h33, if_neg h34, if_neg h35, if_neg h36, if_neg h37, if_neg h38, if_neg h39, if_neg h40, if_neg h41]

/-- C7 witness: `update_lead` maps to the lead-update tool and `bogus`
fails. -/
theorem operation_dispatch_w :
    resolveTool "update_lead" = Except.ok "salesforce_update_lead" ∧
    resolveTool "bogus" = Except.error ("Unknown operation: " ++ "bogus") :=
  ⟨operation_dispatch.1 ("update_lead", "salesforce_update_lead") (by decide),
   operation_dispatch.2 "bogus" (by decide)⟩

set_option maxHeartbeats 1000000 in
/-- C1 (amended): on a 2xx response with a parseable body, every tool's
transformer that returns does so with an envelope whose top level is exactly
`success: true` plus an `output` object; for every tool except
`salesforce_get_report_metadata` the `output.metadata` field is
`{ operation: <name> }`, while for `salesforce_get_report_metadata` the
`output.metadata` field is the response payload and the operation name is
the sibling `output.operation` field. -/
theorem tools_success_envelope :
    ∀ t ∈ allTools, ∀ (data : Json) (params : List (String × Json)) (res : Json),
      t.transform true (some data) params = Except.ok res →
      res = Json.obj [("success", Json.bool true), ("output", jsGet res "output")] ∧
      (t.id ≠ "salesforce_get_report_metadata" →
        jsGet (jsGet res "output") "metadata" = opMeta t.op) ∧
      (t.id = "salesforce_get_report_metadata" →
        jsGet (jsGet res "output") "metadata" = data ∧
        jsGet (jsGet res "output") "operation" = Json.str t.op) := by
  intro t ht
  simp only [allTools, List.mem_cons, List.not_mem_nil, or_false] at ht
  rcases ht with rfl|rfl|rfl|rfl|rfl|rfl|rfl|rfl|rfl|rfl|rfl|rfl|rfl|rfl|rfl|rfl|rfl <;>
    intro data params res h <;>
    cases data <;>
      first
        | exact Except.noConfusion h
        | (have h2 := Except.ok.inj h
           subst h2
           refine ⟨rfl, fun hid => ?_, fun hid => ?_⟩ <;>
             first
               | exact absurd rfl hid
               | exact absurd hid (by decide)
               | exact rfl
               | exact ⟨rfl, rfl⟩)

/-- C1 witness: the envelope theorem applied to the run_report tool at a
concrete payload and parameter bag. -/
theorem tools_success_envelope_w :
    runReportEnvelopeExample =
      Json.obj [("success", Json.bool true), ("output", jsGet runReportEnvelopeExample "output")] ∧
    ("salesforce_run_report" ≠ "salesforce_get_report_metadata" →
      jsGet (jsGet runReportEnvelopeExample "output") "metadata" = opMeta "run_report") ∧
    ("salesforce_run_report" = "salesforce_get_report_metadata" →
      jsGet (jsGet runReportEnvelopeExample "output") "metadata" = Json.arr [] ∧
      jsGet (jsGet runReportEnvelopeExample "output") "operation" = Json.str "run_report") :=
  tools_success_envelope
    ⟨"salesforce_run_report", "run_report", false, "Failed to run report", runReportTransform⟩
    (by repeat first | exact List.Mem.head _ | apply List.Mem.tail)
    (Json.arr []) [("reportId", Json.str "R1")] runReportEnvelopeExample rfl

/-- C1 counterexample: for the get_report_metadata tool on a 2xx response,
`output.metadata` is the response payload itself, not
`{ operation: "get_report_metadata" }` as the claim states for every tool. -/
theorem getReportMetadata_metadata_is_payload :
    getReportMetadataTransform true (some (Json.obj [("name", Json.str "Acme")]))
        [("reportId", Json.str "R1")] =
      Except.ok (Json.obj [
        ("success", Json.bool true),
        ("output", Json.obj [
          ("reportId", Json.str "R1"),
          ("metadata", Json.obj [("name", Json.str "Acme")]),
          ("operation", Json.str "get_report_metadata"),
          ("success", Json.bool true)])]) ∧
    jsGet (jsGet (Json.obj [
        ("success", Json.bool true),
        ("output", Json.obj [
          ("reportId", Json.str "R1"),
          ("metadata", Json.obj [("name", Json.str "Acme")]),
          ("operation", Json.str "get_report_metadata"),
          ("success", Json.bool true)])]) "output") "metadata" ≠
      opMeta "get_report_metadata" :=
  ⟨rfl, by simp [jsGet, lookupLast, opMeta]⟩

set_option maxHeartbeats 1000000 in
/-- C8 (amended): for the three delete tools the transformer throws exactly
on a non-OK response, parsing the body defensively (an unparseable body
becomes `{}`), with the message selected by `raiseErr` in the priority order
`body[0].message`, `body.message`, fixed fallback; every other tool first
parses the body, so it throws a parse error on any unparseable body — even
on a 2xx response — and otherwise throws exactly on non-2xx with the same
message priority (a `null` body makes the success path of the three tools
that read fields of the payload throw a `TypeError`, hence the non-`null`
hypothesis). -/
theorem tools_error_contract :
    ∀ t ∈ allTools, ∀ params : List (String × Json),
      (t.isDelete = false → ∀ ok : Bool,
        t.transform ok none params = Except.error JsErr.parseError) ∧
      (t.isDelete = false → ∀ data : Json,
        t.transform false (some data) params = Except.error (raiseErr data t.fallback)) ∧
      (t.isDelete = false → ∀ data : Json, data ≠ Json.null →
        ∃ res, t.transform true (some data) params = Except.ok res) ∧
      (t.isDelete = true → ∀ body : Option Json,
        ∃ res, t.transform true body params = Except.ok res) ∧
      (t.isDelete = true → ∀ body : Option Json,
        t.transform false body params = Except.error (raiseErr (body.getD (Json.obj [])) t.fallback)) := by
  intro t ht params
  simp only [allTools, List.mem_cons, List.not_mem_nil, or_false] at ht
  rcases ht with rfl|rfl|rfl|rfl|rfl|rfl|rfl|rfl|rfl|rfl|rfl|rfl|rfl|rfl|rfl|rfl|rfl <;>
    refine ⟨?_, ?_, ?_, ?_, ?_⟩ <;>
      first
        | (intro hfd; exact absurd hfd (by decide))
        | (intro _ ok; rfl)
        | (intro _ data hne; cases data <;> first | exact absurd rfl hne | exact ⟨_, rfl⟩)
        | (intro _ body; exact ⟨_, rfl⟩)

/-- C8 witness: the delete_report tool on a non-OK response with an
unparseable body throws the fixed fallback message (via `raiseErr` on the
empty object). -/
theorem tools_error_contract_w :
    deleteReportTransform false none [] =
      Except.error (raiseErr (Json.obj []) "Failed to delete report") :=
  (tools_error_contract
    ⟨"salesforce_delete_report", "delete_report", true, "Failed to delete report", deleteReportTransform⟩
    (by repeat first | exact List.Mem.head _ | apply List.Mem.tail) []).2.2.2.2 rfl none

/-- C8 counterexample: the list_reports transformer throws on a 2xx response
whose body is not parseable JSON, so throwing is not equivalent to the
response being non-2xx. -/
theorem listReports_2xx_unparseable_throws :
    listReportsTransform true none [] = Except.error JsErr.parseError ∧
    ¬ (∀ body : Option Json, ∃ res, listReportsTransform true body [] = Except.ok res) :=
  ⟨rfl, fun hall => by
    obtain ⟨res, hres⟩ := hall none
    rw [show listReportsTransform true none [] = Except.error JsErr.parseError from rfl] at hres
    exact Except.noConfusion hres⟩
